import Mathlib

/-
Verification of the x402-agent command-line pipeline (src/main.py).

The development shallowly embeds the program: the filesystem is a map from
paths to optional file contents, the process environment is a map from
variable names to optional values, parsed JSON documents are an inductive
type, and the remote MCP session / language-model calls are abstracted by
an oracle recording which remote operations were invoked and what each
returned.  Every definition mirrors a specific piece of src/main.py (or the
documented behaviour of a library call it makes); the theorems at the end
settle the specification claims.
-/

namespace LocusAgent

/-- A parsed JSON document, as produced by Python's json.load. -/
inductive Json where
  | null
  | bool (b : Bool)
  | num (n : Int)
  | str (s : String)
  | arr (elems : List Json)
  | obj (fields : List (String × Json))

/-- Python truthiness (`bool(v)`) of a parsed JSON value, as used by
`if not client_id or not client_secret` in load_credentials. -/
def Json.truthy : Json → Bool
  | .null => false
  | .bool b => b
  | .num n => n != 0
  | .str s => s != ""
  | .arr elems => !elems.isEmpty
  | .obj fields => !fields.isEmpty

/-- Whether a JSON value is a string. -/
def Json.isStr : Json → Bool
  | .str _ => true
  | _ => false

/-- Whether a JSON value is an object (a Python dict after json.load). -/
def Json.isObj : Json → Bool
  | .obj _ => true
  | _ => false

/-- Key lookup in a JSON value: the value at a key of an object, none
otherwise (used only to state claims about present/absent keys). -/
def Json.objLookup : Json → String → Option Json
  | .obj fields, k => fields.lookup k
  | _, _ => none

/-- The Python exceptions the program can raise or receive. `exception`
stands for any exception raised by the remote-session or model libraries. -/
inductive PyError where
  | fileNotFound (msg : String)
  | valueError (msg : String)
  | attributeError (msg : String)
  | jsonDecodeError (msg : String)
  | indexError (msg : String)
  | exception (msg : String)

/-- Python str() of an exception: its message, for every kind alike. -/
def PyError.msg : PyError → String
  | .fileNotFound m => m
  | .valueError m => m
  | .attributeError m => m
  | .jsonDecodeError m => m
  | .indexError m => m
  | .exception m => m

/-- A filesystem path, as a list of components from the root. -/
abbrev Path := List String

/-- Rendering of a path as Python would show it inside an error message. -/
def pathStr (p : Path) : String := String.intercalate "/" p

/-- Contents of a file on disk, as far as the program can observe them:
a file that json.load parses, a file of key=value lines for dotenv, or
any other file. -/
inductive FileContent where
  | jsonFile (data : Json)
  | envFile (pairs : List (String × String))
  | rawFile (text : String)

/-- The filesystem: each path either holds a file or does not exist. -/
abbrev FS := Path → Option FileContent

/-- Writing one file (shutil.copy2 to the target path). -/
def FS.write (fs : FS) (p : Path) (c : FileContent) : FS :=
  fun q => if q = p then some c else fs q

/-- The process-start facts main.py consults: sys.frozen, sys._MEIPASS,
the directory of sys.executable, the directory of the script file
(Path of main.py's parent), and the current working directory. -/
structure SysState where
  frozen : Bool
  meipass : Option Path
  exeDir : Path
  scriptDir : Path
  cwd : Path

/-- The process environment (os.environ): variable name to optional value. -/
abbrev EnvMap := String → Option String

/-- extract_bundled_files (src/main.py lines 15-30): when running frozen
with a PyInstaller bundle, copy the bundled data.json next to the
executable, but only if the bundled copy exists and the target does not. -/
def extract_bundled_files (sys : SysState) (fs : FS) : FS :=
  if sys.frozen = false then fs
  else
    match sys.meipass with
    | none => fs
    | some bundle =>
      if (fs (bundle ++ ["data.json"])).isSome then
        if (fs (sys.exeDir ++ ["data.json"])).isNone then
          match fs (bundle ++ ["data.json"]) with
          | some c => FS.write fs (sys.exeDir ++ ["data.json"]) c
          | none => fs
        else fs
      else fs

/-- get_data_path (src/main.py lines 33-46): run extraction, then resolve
data.json beside the executable when frozen, else beside the script. -/
def get_data_path (sys : SysState) (fs : FS) : Path × FS :=
  let fs1 := extract_bundled_files sys fs
  if sys.frozen then (sys.exeDir ++ ["data.json"], fs1)
  else (sys.scriptDir ++ ["data.json"], fs1)

/-- Python `v.get(key, dflt)`: dictionary lookup with default on a dict,
AttributeError on any other value. -/
def pyGet (v : Json) (key : String) (dflt : Json) : Except PyError Json :=
  match v with
  | .obj fields => .ok ((fields.lookup key).getD dflt)
  | _ => .error (.attributeError "object has no attribute get")

/-- One credential field of load_credentials (src/main.py lines 80-83):
`data.get(;editable;, {}).get(field, {}).get(;value;, ;;)` with the
string quotes elided here; both fields recompute the chain from `data`. -/
def extract_field (data : Json) (field : String) : Except PyError Json :=
  match pyGet data "editable" (Json.obj []) with
  | .error e => .error e
  | .ok editable =>
    match pyGet editable field (Json.obj []) with
    | .error e => .error e
    | .ok entry => pyGet entry "value" (Json.str "")

/-- The validated credential pair load_credentials returns. -/
structure Credentials where
  client_id : Json
  client_secret : Json

/-- The body of load_credentials after json.load (src/main.py lines 80-92):
read both fields, then `if not client_id or not client_secret: raise
ValueError(...)`, else return the pair. -/
def parse_credentials (data : Json) : Except PyError Credentials :=
  match extract_field data "locus_client_id" with
  | .error e => .error e
  | .ok client_id =>
    match extract_field data "locus_client_secret" with
    | .error e => .error e
    | .ok client_secret =>
      if !client_id.truthy || !client_secret.truthy then
        Except.error (PyError.valueError
          "LOCUS_CLIENT_ID and LOCUS_CLIENT_SECRET must be set in data.json")
      else
        Except.ok ⟨client_id, client_secret⟩

/-- load_credentials (src/main.py lines 69-92): resolve the data path
(which may extract the bundled copy), fail with FileNotFoundError naming
the path when the file is absent, fail with a JSON decode error when it
does not parse, else validate with parse_credentials. -/
def load_credentials (sys : SysState) (fs : FS) :
    Except PyError Credentials × FS :=
  let res := get_data_path sys fs
  match res.2 res.1 with
  | none =>
    (.error (.fileNotFound ("data.json not found at " ++ pathStr res.1 ++
      ". Please create it with your credentials.")), res.2)
  | some (.jsonFile data) => (parse_credentials data, res.2)
  | some _ =>
    (.error (.jsonDecodeError "Expecting value: line 1 column 1 (char 0)"),
     res.2)

/-- Applying one key=value pair from a .env file to the environment with
python-dotenv's default override=False: an already-set variable keeps its
value, an unset one receives the file's value. -/
def setIfAbsent (env : EnvMap) (k v : String) : EnvMap :=
  fun x => if x = k then some ((env k).getD v) else env x

/-- The pairs dotenv reads from a file: the key=value lines of a .env
file; any other file yields no pairs (dotenv parses leniently and never
raises on content). -/
def dotenvPairs : FileContent → List (String × String)
  | .envFile pairs => pairs
  | _ => []

/-- Loading one dotenv file into the environment, pair by pair, without
overriding variables that are already set. -/
def load_dotenv_file (c : FileContent) (env : EnvMap) : EnvMap :=
  (dotenvPairs c).foldl (fun e kv => setIfAbsent e kv.1 kv.2) env

/-- load_dotenv(path) on an explicit path: load the file there if it
exists, otherwise change nothing. -/
def load_dotenv_at (fs : FS) (p : Path) (env : EnvMap) : EnvMap :=
  match fs p with
  | some c => load_dotenv_file c env
  | none => env

/-- Fuel-indexed helper for walk_to_root: with fuel equal to the path's
length it lists the path and each of its ancestors down to the root. -/
def walk_aux : Nat → Path → List Path
  | 0, p => [p]
  | n + 1, p => p :: walk_aux n p.dropLast

/-- The directories python-dotenv's find_dotenv walks: the start directory
and each of its ancestors up to and including the root. -/
def walk_to_root (p : Path) : List Path := walk_aux p.length p

/-- find_dotenv as called by load_dotenv() with no arguments from a
non-frozen, non-interactive script: starting from the directory of the
calling file (main.py's directory) it walks up to the filesystem root and
returns the first .env file found, none if there is none. -/
def find_dotenv (fs : FS) (start : Path) : Option Path :=
  ((walk_to_root start).find? (fun d => (fs (d ++ [".env"])).isSome)).map
    (fun d => d ++ [".env"])

/-- load_dotenv() with no arguments in script mode (src/main.py line 66):
python-dotenv resolves the file with find_dotenv from the calling script's
directory; when no .env exists along the walk it does nothing. -/
def load_dotenv_default (sys : SysState) (fs : FS) (env : EnvMap) : EnvMap :=
  match find_dotenv fs sys.scriptDir with
  | some p => load_dotenv_at fs p env
  | none => env

/-- The environment produced by the .env branch of the module-level
prologue (src/main.py lines 51-66), given the filesystem after
extraction: frozen with a bundle tries the bundle's .env first, then the
executable directory's .env; frozen without a bundle loads nothing; a
script calls load_dotenv() with no arguments. -/
def module_env_value (sys : SysState) (fs1 : FS) (env : EnvMap) : EnvMap :=
  if sys.frozen then
    match sys.meipass with
    | some bundle =>
      if (fs1 (bundle ++ [".env"])).isSome then
        load_dotenv_at fs1 (bundle ++ [".env"]) env
      else
        if (fs1 (sys.exeDir ++ [".env"])).isSome then
          load_dotenv_at fs1 (sys.exeDir ++ [".env"]) env
        else env
    | none => env
  else
    load_dotenv_default sys fs1 env

/-- The module-level prologue of src/main.py (lines 49-66): extract the
bundled data.json, then load .env from the bundle when frozen (falling
back to the executable's directory), or via load_dotenv() when running as
a script.  Returns the filesystem after extraction and the environment
after loading. -/
def module_env_setup (sys : SysState) (fs : FS) (env : EnvMap) :
    FS × EnvMap :=
  let fs1 := extract_bundled_files sys fs
  (fs1, module_env_value sys fs1 env)

/-- A message of the reasoning loop's result list. `content` is the
payload of the message's content attribute when the message has one
(for LangChain messages it is a string or a structured list of blocks);
`strRepr` is what Python str() of the whole message yields. -/
structure Message where
  content : Option Json
  strRepr : String

/-- The answer extraction of process_query (src/main.py lines 129-133):
return last_message.content when the attribute exists, else
str(last_message). -/
def extract_answer (m : Message) : Json :=
  match m.content with
  | some c => c
  | none => .str m.strRepr

/-- The remote-facing events process_query can perform, in order of
occurrence: the credential load in main, the MCP session initialization,
the tool-discovery call, and the agent/model invocation. -/
inductive Event where
  | credLoad
  | clientInit
  | getTools
  | modelCall
deriving DecidableEq

/-- The outcomes of the external calls process_query makes, fixed for one
invocation: what `await client.initialize()` yields, what
`await client.get_tools()` yields, whether the ChatAnthropic client can be
constructed from the API key it is given, and what messages the agent
loop terminates with. -/
structure Oracle where
  initRes : Except PyError Unit
  toolsRes : Except PyError (List String)
  llmRes : Option String → Except PyError Unit
  agentRes : Except PyError (List Message)

/-- process_query (src/main.py lines 95-133): initialize the MCP client,
discover tools, build the model client from ANTHROPIC_API_KEY, run the
agent once, and extract the last message's payload.  The second component
records which remote/model calls were performed, in order. -/
def process_query (env : EnvMap) (o : Oracle) :
    Except PyError Json × List Event :=
  match o.initRes with
  | .error e => (.error e, [Event.clientInit])
  | .ok _ =>
    match o.toolsRes with
    | .error e => (.error e, [Event.clientInit, Event.getTools])
    | .ok _tools =>
      match o.llmRes (env "ANTHROPIC_API_KEY") with
      | .error e => (.error e, [Event.clientInit, Event.getTools])
      | .ok _ =>
        match o.agentRes with
        | .error e =>
          (.error e, [Event.clientInit, Event.getTools, Event.modelCall])
        | .ok msgs =>
          match msgs.getLast? with
          | none =>
            (.error (.indexError "list index out of range"),
             [Event.clientInit, Event.getTools, Event.modelCall])
          | some m =>
            (.ok (extract_answer m),
             [Event.clientInit, Event.getTools, Event.modelCall])

/-- Python str() of a parsed JSON value, as print() would show it:
strings print as themselves, containers print with repr of elements. -/
def pyStr : Json → String
  | .str s => s
  | v => pyRepr v
where
  /-- Python repr of a parsed JSON value. -/
  pyRepr : Json → String
    | .null => "None"
    | .bool true => "True"
    | .bool false => "False"
    | .num n => toString n
    | .str s => "\x27" ++ s ++ "\x27"
    | .arr elems => "[" ++ pyReprElems elems ++ "]"
    | .obj fields => "\x7b" ++ pyReprFields fields ++ "\x7d"
  /-- Comma-separated repr of list elements. -/
  pyReprElems : List Json → String
    | [] => ""
    | [x] => pyRepr x
    | x :: y :: rest => pyRepr x ++ ", " ++ pyReprElems (y :: rest)
  /-- Comma-separated repr of dict entries. -/
  pyReprFields : List (String × Json) → String
    | [] => ""
    | [kv] => "\x27" ++ kv.1 ++ "\x27: " ++ pyRepr kv.2
    | kv :: f :: rest =>
      "\x27" ++ kv.1 ++ "\x27: " ++ pyRepr kv.2 ++ ", " ++
        pyReprFields (f :: rest)

/-- The result of one CLI invocation: exit status, lines printed to
standard output, lines printed to standard error, whether
traceback.print_exc ran, and the pipeline events that were performed. -/
structure CliResult where
  exitCode : Nat
  stdout : List String
  stderr : List String
  tracePrinted : Bool
  events : List Event

/-- The argparse usage line for the parser of src/main.py lines 138-142. -/
def usageMsg : String := "usage: main.py [-h] \x7brun\x7d query [query ...]"

/-- argparse parsing for one positional `command` restricted to the choice
run plus `query` with nargs +, on plain (non-option) arguments: a command
outside the choices or a missing query aborts parsing with an error
(argparse then prints usage to standard error and exits 2). -/
def parse_args : List String → Except String (String × List String)
  | [] => .error "the following arguments are required: command, query"
  | [c] =>
    if c = "run" then .error "the following arguments are required: query"
    else .error ("argument command: invalid choice: \x27" ++ c ++ "\x27")
  | c :: q =>
    if c = "run" then .ok (c, q)
    else .error ("argument command: invalid choice: \x27" ++ c ++ "\x27")

/-- The try-block of main (src/main.py lines 155-165): load credentials,
then run process_query; the event list records the credential load and
whatever remote/model calls happened. -/
def run_pipeline (sys : SysState) (fs : FS) (env : EnvMap) (o : Oracle) :
    Except PyError Json × List Event :=
  match (load_credentials sys fs).1 with
  | .error e => (.error e, [Event.credLoad])
  | .ok _creds =>
    let pq := process_query env o
    (pq.1, Event.credLoad :: pq.2)

/-- Running the program once (module prologue then main, src/main.py
lines 136-173) on an argument list: argparse failures exit 2 with the
message on standard error; the dead invalid-command branch and the
empty-query branch print their usage text to standard output and exit 1;
a pipeline error prints the message and a traceback and exits 1; success
prints the answer and exits 0. -/
def main (argv : List String) (sys : SysState) (fs : FS) (env : EnvMap)
    (o : Oracle) : CliResult :=
  let setup := module_env_setup sys fs env
  match parse_args argv with
  | .error e => ⟨2, [], [usageMsg, "main.py: error: " ++ e], false, []⟩
  | .ok (cmd, qargs) =>
    if cmd ≠ "run" then
      ⟨1, ["❌ Error: Invalid command",
           "Usage: python index.py run \"<your query>\""], [], false, []⟩
    else
      let query := String.intercalate " " qargs
      if query = "" then
        ⟨1, ["❌ Error: Query parameter is required",
             "Usage: python index.py run \"<your query>\""], [], false, []⟩
      else
        match run_pipeline sys setup.1 setup.2 o with
        | (.error e, evs) =>
          ⟨1, ["❌ Error: " ++ e.msg, "\nFull traceback:"], [], true, evs⟩
        | (.ok ans, evs) => ⟨0, [pyStr ans], [], false, evs⟩

/-- The empty process environment. -/
def envEmpty : EnvMap := fun _ => none

/-- The empty filesystem. -/
def fsEmpty : FS := fun _ => none

/-- A script-mode process: not frozen, no bundle, script in /proj,
working directory /home/user. -/
def sysScript : SysState := ⟨false, none, ["opt"], ["proj"], ["home", "user"]⟩

/-- A packaged-binary process: frozen, bundle at /bundle, executable in
/exe. -/
def sysFrozen : SysState := ⟨true, some ["bundle"], ["exe"], ["proj"], ["home"]⟩

/-- A data.json document with the two credential fields holding the given
values. -/
def secretsJson (cid cs : Json) : Json :=
  .obj [("editable", .obj
    [("locus_client_id", .obj [("value", cid)]),
     ("locus_client_secret", .obj [("value", cs)])])]

/-- A script-mode filesystem holding only /proj/data.json with the given
credential values. -/
def fsSecrets (cid cs : Json) : FS :=
  fun p => if p = ["proj", "data.json"] then
    some (.jsonFile (secretsJson cid cs)) else none

/-- A terminal message whose content is a plain string. -/
def msgText : Message := ⟨some (.str "answer"), "AIMessage"⟩

/-- An oracle on which every external call succeeds and the loop ends in
a plain-string message. -/
def oracleOk : Oracle := ⟨.ok (), .ok ["tool"], fun _ => .ok (), .ok [msgText]⟩

/-- A structured, non-string terminal payload: a list of content blocks. -/
def structuredPayload : Json :=
  .arr [.obj [("type", .str "text"), ("text", .str "hi")]]

/-- A terminal message carrying the structured payload in its content
attribute. -/
def msgStructured : Message := ⟨some structuredPayload, "AIMessage"⟩

/-- An oracle on which every external call succeeds and the loop ends in
a message with a structured payload. -/
def oracleStructured : Oracle :=
  ⟨.ok (), .ok ["tool"], fun _ => .ok (), .ok [msgStructured]⟩

/-- A packaged-binary filesystem where the extracted data.json already
exists beside the executable and the bundled copy differs from it. -/
def fsFrozenBoth : FS :=
  fun p =>
    if p = ["exe", "data.json"] then some (.jsonFile (.str "user-edited"))
    else if p = ["bundle", "data.json"] then some (.jsonFile (.str "bundled"))
    else none

/-- A filesystem whose only file is a .env under the working directory
/home/user, which defines the model API key. -/
def fsCwdEnvOnly : FS :=
  fun p =>
    if p = ["home", "user", ".env"] then
      some (.envFile [("ANTHROPIC_API_KEY", "k")])
    else none

/-- A packaged-binary filesystem whose only file is the bundle's .env. -/
def fsBundleEnv : FS :=
  fun p =>
    if p = ["bundle", ".env"] then
      some (.envFile [("ANTHROPIC_API_KEY", "bk")])
    else none

/-- A script-mode process whose script directory /a/b is two levels deep,
so the dotenv walk visits /a/b, /a and the root. -/
def sysScriptDeep : SysState := ⟨false, none, ["opt"], ["a", "b"], ["home"]⟩

/-- A filesystem whose only .env sits in /a, the parent of the script
directory /a/b. -/
def fsParentEnv : FS :=
  fun p =>
    if p = ["a", ".env"] then
      some (.envFile [("ANTHROPIC_API_KEY", "pk")])
    else none

/-- States that every level of the credential structure that is present in
the document is a JSON object: the document itself, the editable entry if
present, and each credential field entry if present.  Used to state claim
C10's hypothesis. -/
def fieldLevelsAreObjects (data : Json) : Bool :=
  data.isObj &&
  (match data.objLookup "editable" with
   | none => true
   | some e =>
     e.isObj &&
     (match e.objLookup "locus_client_id" with
      | none => true
      | some entry => entry.isObj) &&
     (match e.objLookup "locus_client_secret" with
      | none => true
      | some entry => entry.isObj))

/-- States that some level of the credential structure is absent: the
top-level editable key, a credential field key under it, or the value
sub-key of a present field.  Used to state claim C10's hypothesis. -/
def someFieldLevelMissing (data : Json) : Bool :=
  match data.objLookup "editable" with
  | none => true
  | some e =>
    (match e.objLookup "locus_client_id" with
     | none => true
     | some entry => (entry.objLookup "value").isNone) ||
    (match e.objLookup "locus_client_secret" with
     | none => true
     | some entry => (entry.objLookup "value").isNone)

lemma extract_not_frozen (sys : SysState) (fs : FS)
    (h : sys.frozen = false) : extract_bundled_files sys fs = fs := by
  simp [extract_bundled_files, h]

lemma extract_of_target_some (sys : SysState) (fs : FS) (c : FileContent)
    (h : fs (sys.exeDir ++ ["data.json"]) = some c) :
    extract_bundled_files sys fs = fs := by
  unfold extract_bundled_files
  split
  · rfl
  · split
    · rfl
    · simp [h]

lemma extract_only_target (sys : SysState) (fs : FS) (p : Path)
    (hp : p ≠ sys.exeDir ++ ["data.json"]) :
    extract_bundled_files sys fs p = fs p := by
  by_cases hf : sys.frozen = false
  · rw [extract_not_frozen sys fs hf]
  · replace hf : sys.frozen = true := by
      cases h : sys.frozen
      · exact absurd h hf
      · rfl
    cases hm : sys.meipass with
    | none => simp [extract_bundled_files, hf, hm]
    | some bundle =>
      cases hB : fs (bundle ++ ["data.json"]) with
      | none => simp [extract_bundled_files, hf, hm, hB]
      | some c =>
        cases hT : fs (sys.exeDir ++ ["data.json"]) with
        | some d => simp [extract_bundled_files, hf, hm, hB, hT]
        | none => simp [extract_bundled_files, hf, hm, hB, hT, FS.write, hp]

lemma extract_idem (sys : SysState) (fs : FS) :
    extract_bundled_files sys (extract_bundled_files sys fs) =
      extract_bundled_files sys fs := by
  by_cases hf : sys.frozen = false
  · rw [extract_not_frozen sys _ hf, extract_not_frozen sys _ hf]
  · replace hf : sys.frozen = true := by
      cases h : sys.frozen
      · exact absurd h hf
      · rfl
    cases hm : sys.meipass with
    | none =>
      have h1 : extract_bundled_files sys fs = fs := by
        simp [extract_bundled_files, hf, hm]
      rw [h1, h1]
    | some bundle =>
      cases hB : fs (bundle ++ ["data.json"]) with
      | none =>
        have h1 : extract_bundled_files sys fs = fs := by
          simp [extract_bundled_files, hf, hm, hB]
        rw [h1, h1]
      | some c =>
        cases hT : fs (sys.exeDir ++ ["data.json"]) with
        | some d =>
          have h1 : extract_bundled_files sys fs = fs := by
            simp [extract_bundled_files, hf, hm, hB, hT]
          rw [h1, h1]
        | none =>
          have h1 : extract_bundled_files sys fs =
              FS.write fs (sys.exeDir ++ ["data.json"]) c := by
            simp [extract_bundled_files, hf, hm, hB, hT]
          rw [h1]
          by_cases hbt :
              bundle ++ ["data.json"] = sys.exeDir ++ ["data.json"]
          · simp [extract_bundled_files, hf, hm, FS.write, hbt]
          · simp [extract_bundled_files, hf, hm, FS.write, hbt, hB]

/-- C4: in PackagedBinary mode (indeed in every mode) resource extraction
never overwrites an existing secrets file beside the binary: when the
target exists the filesystem is returned unchanged, no path other than
the target is ever written, and iterating extraction any number of times
equals a single extraction. -/
theorem c4_extraction_idempotent (sys : SysState) (fs : FS) :
    (∀ c, fs (sys.exeDir ++ ["data.json"]) = some c →
        extract_bundled_files sys fs = fs) ∧
    (∀ p, p ≠ sys.exeDir ++ ["data.json"] →
        extract_bundled_files sys fs p = fs p) ∧
    (∀ n, (extract_bundled_files sys)^[n + 1] fs =
        extract_bundled_files sys fs) := by
  refine ⟨fun c h => extract_of_target_some sys fs c h,
          fun p hp => extract_only_target sys fs p hp, fun n => ?_⟩
  induction n with
  | zero => simp
  | succ n ih =>
    rw [Function.iterate_succ_apply', ih, extract_idem]

/-- Witness for C4: on a packaged-binary filesystem where the extracted
secrets file already exists and the bundled copy differs, extraction
leaves the filesystem unchanged and a second extraction adds nothing. -/
theorem c4_witness :
    extract_bundled_files sysFrozen fsFrozenBoth = fsFrozenBoth ∧
    (extract_bundled_files sysFrozen)^[2] fsFrozenBoth =
      extract_bundled_files sysFrozen fsFrozenBoth :=
  ⟨(c4_extraction_idempotent sysFrozen fsFrozenBoth).1
      (.jsonFile (.str "user-edited")) rfl,
   (c4_extraction_idempotent sysFrozen fsFrozenBoth).2.2 1⟩

/-- C1 counterexample: the code does not trim whitespace.  A secrets file
whose client-id value is a single space — the empty string after trimming,
so the claim demands a ValidationError — is accepted by load_credentials,
which returns the space verbatim. -/
theorem c1_counterexample :
    ((" " : String).toList.all Char.isWhitespace ∧ (" " : String) ≠ "") ∧
    (load_credentials sysScript (fsSecrets (.str " ") (.str "x"))).1 =
      .ok ⟨.str " ", .str "x"⟩ := by
  exact ⟨by decide, rfl⟩

/-- C1 as amended: with no trimming involved, a secrets file whose
credential fields parse to strings fails with the ValidationError exactly
when either string is empty (in particular when a field is absent, since
the lookup chain then yields the empty-string default), and otherwise
yields exactly the parsed values. -/
theorem c1_amended_spec (sys : SysState) (fs : FS) (data : Json)
    (cid cs : String)
    (hfile : (get_data_path sys fs).2 (get_data_path sys fs).1 =
      some (.jsonFile data))
    (hcid : extract_field data "locus_client_id" = .ok (.str cid))
    (hcs : extract_field data "locus_client_secret" = .ok (.str cs)) :
    (load_credentials sys fs).1 =
      (if cid = "" ∨ cs = "" then
        .error (.valueError
          "LOCUS_CLIENT_ID and LOCUS_CLIENT_SECRET must be set in data.json")
      else .ok ⟨.str cid, .str cs⟩) := by
  have hload : (load_credentials sys fs).1 = parse_credentials data := by
    unfold load_credentials
    simp [hfile]
  rw [hload]
  unfold parse_credentials
  rw [hcid, hcs]
  by_cases h1 : cid = "" <;> by_cases h2 : cs = "" <;>
    simp [Json.truthy, h1, h2]

/-- Witness for C1: a secrets file with both fields the non-empty strings
a and b loads successfully with exactly those values. -/
theorem c1_witness :
    (load_credentials sysScript (fsSecrets (.str "a") (.str "b"))).1 =
      .ok ⟨.str "a", .str "b"⟩ := by
  have h := c1_amended_spec sysScript (fsSecrets (.str "a") (.str "b"))
    (secretsJson (.str "a") (.str "b")) "a" "b" rfl rfl rfl
  simpa using h

/-- C10: when every present level of the credential structure is an
object but some level is absent — no top-level editable key, a missing
field key, or a missing value sub-key — parsing does not crash with a
lookup error: the chain of dict gets falls through to the empty-string
default, so load_credentials fails with the ValidationError and no
Credentials value is constructed. -/
theorem c10_total_parsing (data : Json)
    (hlv : fieldLevelsAreObjects data = true)
    (hmiss : someFieldLevelMissing data = true) :
    parse_credentials data =
      .error (.valueError
        "LOCUS_CLIENT_ID and LOCUS_CLIENT_SECRET must be set in data.json")
    := by
  cases data with
  | obj kvs =>
    cases he : kvs.lookup "editable" with
    | none =>
      simp [parse_credentials, extract_field, pyGet, Json.objLookup, he,
        Json.truthy]
    | some e =>
      simp only [fieldLevelsAreObjects, Json.isObj, Json.objLookup, he,
        Bool.and_eq_true] at hlv
      obtain ⟨-, hlv⟩ := hlv
      cases e with
      | obj eks =>
        simp only [Bool.and_eq_true] at hlv
        obtain ⟨⟨-, h2⟩, h3⟩ := hlv
        simp only [someFieldLevelMissing, Json.objLookup, he] at hmiss
        cases hcl : eks.lookup "locus_client_id" with
        | none =>
          cases hcs2 : eks.lookup "locus_client_secret" with
          | none =>
            simp [parse_credentials, extract_field, pyGet, Json.objLookup,
              he, hcl, hcs2, Json.truthy]
          | some entry2 =>
            rw [hcs2] at h3
            cases entry2 with
            | obj cks2 =>
              simp [parse_credentials, extract_field, pyGet, Json.objLookup,
                he, hcl, hcs2, Json.truthy]
            | null => simp [Json.isObj] at h3
            | bool b => simp [Json.isObj] at h3
            | num n => simp [Json.isObj] at h3
            | str s => simp [Json.isObj] at h3
            | arr elems => simp [Json.isObj] at h3
        | some entry1 =>
          rw [hcl] at h2
          cases entry1 with
          | obj cks1 =>
            cases hcs2 : eks.lookup "locus_client_secret" with
            | none =>
              simp [parse_credentials, extract_field, pyGet, Json.objLookup,
                he, hcl, hcs2, Json.truthy]
            | some entry2 =>
              rw [hcs2] at h3
              cases entry2 with
              | obj cks2 =>
                rw [hcl, hcs2] at hmiss
                simp only [Json.objLookup, Bool.or_eq_true,
                  Option.isNone_iff_eq_none] at hmiss
                cases hv1 : cks1.lookup "value" with
                | none =>
                  cases hv2 : cks2.lookup "value" with
                  | none =>
                    simp [parse_credentials, extract_field, pyGet,
                      Json.objLookup, he, hcl, hcs2, hv1, hv2, Json.truthy]
                  | some v2 =>
                    simp [parse_credentials, extract_field, pyGet,
                      Json.objLookup, he, hcl, hcs2, hv1, hv2, Json.truthy]
                | some v1 =>
                  cases hv2 : cks2.lookup "value" with
                  | none =>
                    simp [parse_credentials, extract_field, pyGet,
                      Json.objLookup, he, hcl, hcs2, hv1, hv2, Json.truthy]
                  | some v2 =>
                    rw [hv1, hv2] at hmiss
                    simp at hmiss
              | null => simp [Json.isObj] at h3
              | bool b => simp [Json.isObj] at h3
              | num n => simp [Json.isObj] at h3
              | str s => simp [Json.isObj] at h3
              | arr elems => simp [Json.isObj] at h3
          | null => simp [Json.isObj] at h2
          | bool b => simp [Json.isObj] at h2
          | num n => simp [Json.isObj] at h2
          | str s => simp [Json.isObj] at h2
          | arr elems => simp [Json.isObj] at h2
      | null => simp [Json.isObj] at hlv
      | bool b => simp [Json.isObj] at hlv
      | num n => simp [Json.isObj] at hlv
      | str s => simp [Json.isObj] at hlv
      | arr elems => simp [Json.isObj] at hlv
  | null => simp [fieldLevelsAreObjects, Json.isObj] at hlv
  | bool b => simp [fieldLevelsAreObjects, Json.isObj] at hlv
  | num n => simp [fieldLevelsAreObjects, Json.isObj] at hlv
  | str s => simp [fieldLevelsAreObjects, Json.isObj] at hlv
  | arr elems => simp [fieldLevelsAreObjects, Json.isObj] at hlv

/-- Witness for C10: a document whose editable object exists but holds
neither field parses to the ValidationError, not to a crash. -/
theorem c10_witness :
    parse_credentials (.obj [("editable", .obj [])]) =
      .error (.valueError
        "LOCUS_CLIENT_ID and LOCUS_CLIENT_SECRET must be set in data.json")
    :=
  c10_total_parsing (.obj [("editable", .obj [])]) rfl rfl

/-- C2 failing input: when the reasoning loop's terminal message carries a
structured, non-string payload in its content attribute, process_query
returns that payload unchanged — `return last_message.content` performs no
coercion — so the result is not a string, contradicting both the claim and
the function's own `-> str` annotation. -/
theorem c2_nonstring_payload :
    (process_query envEmpty oracleStructured).1 = .ok structuredPayload ∧
    structuredPayload.isStr = false :=
  ⟨rfl, rfl⟩

/-- C9: per invocation, process_query performs at most one
session-initialization call and at most one tool-discovery call, and a
tool-discovery call happens only when initialization came first and
succeeded — there is no retry loop and no reconnection. -/
theorem c9_single_round (env : EnvMap) (o : Oracle) :
    (process_query env o).2.count Event.clientInit ≤ 1 ∧
    (process_query env o).2.count Event.getTools ≤ 1 ∧
    (Event.getTools ∈ (process_query env o).2 →
      o.initRes = .ok () ∧
      (process_query env o).2.head? = some Event.clientInit) := by
  cases hi : o.initRes with
  | error e =>
    simp only [process_query, hi]
    refine ⟨by decide, by decide, fun hm => ?_⟩
    simp at hm
  | ok u =>
    cases u
    cases ht : o.toolsRes with
    | error e =>
      simp only [process_query, hi, ht]
      exact ⟨by decide, by decide, fun _ => ⟨trivial, by decide⟩⟩
    | ok tools =>
      cases hl : o.llmRes (env "ANTHROPIC_API_KEY") with
      | error e =>
        simp only [process_query, hi, ht, hl]
        exact ⟨by decide, by decide, fun _ => ⟨trivial, by decide⟩⟩
      | ok v =>
        cases v
        cases ha : o.agentRes with
        | error e =>
          simp only [process_query, hi, ht, hl, ha]
          exact ⟨by decide, by decide, fun _ => ⟨trivial, by decide⟩⟩
        | ok msgs =>
          cases hlast : msgs.getLast? with
          | none =>
            simp only [process_query, hi, ht, hl, ha, hlast]
            exact ⟨by decide, by decide, fun _ => ⟨trivial, by decide⟩⟩
          | some m =>
            simp only [process_query, hi, ht, hl, ha, hlast]
            exact ⟨by decide, by decide, fun _ => ⟨trivial, by decide⟩⟩

/-- Witness for C9: on a run where every external call succeeds, the
tool-discovery call did happen, initialization succeeded, and the first
recorded call is the session initialization. -/
theorem c9_witness :
    Event.getTools ∈ (process_query envEmpty oracleOk).2 ∧
    oracleOk.initRes = .ok () ∧
    (process_query envEmpty oracleOk).2.head? = some Event.clientInit := by
  have h := (c9_single_round envEmpty oracleOk).2.2 (by decide)
  exact ⟨by decide, h.1, h.2⟩

lemma get_data_path_fst (sys : SysState) (fs : FS) :
    (get_data_path sys fs).1 =
      (if sys.frozen = true then sys.exeDir ++ ["data.json"]
       else sys.scriptDir ++ ["data.json"]) := by
  by_cases hf : sys.frozen = true <;> simp [get_data_path, hf]

lemma get_data_path_snd (sys : SysState) (fs : FS) :
    (get_data_path sys fs).2 = extract_bundled_files sys fs := by
  by_cases hf : sys.frozen = true <;> simp [get_data_path, hf]

lemma load_credentials_absent (sys : SysState) (fs : FS)
    (habs : (get_data_path sys fs).2 (get_data_path sys fs).1 = none) :
    load_credentials sys (extract_bundled_files sys fs) =
      (.error (.fileNotFound ("data.json not found at " ++
          pathStr (get_data_path sys fs).1 ++
          ". Please create it with your credentials.")),
       (get_data_path sys fs).2) := by
  have hfst : (get_data_path sys (extract_bundled_files sys fs)).1 =
      (get_data_path sys fs).1 := by
    rw [get_data_path_fst, get_data_path_fst]
  have hsnd : (get_data_path sys (extract_bundled_files sys fs)).2 =
      (get_data_path sys fs).2 := by
    rw [get_data_path_snd, get_data_path_snd, extract_idem]
  simp only [load_credentials]
  rw [hfst, hsnd, habs]

/-- C3: when the secrets file does not exist at the resolved path (even
after extraction), a run with a well-formed command line fails in the
credential-loading stage with the FileNotFoundError naming that path, the
process exits with status 1 printing that message plus the traceback, and
no remote call is ever made — in particular the session-initialization
stage is never reached. -/
theorem c3_missing_secrets (sys : SysState) (fs : FS) (env : EnvMap)
    (o : Oracle) (qargs : List String)
    (hq : String.intercalate " " qargs ≠ "")
    (habs : (get_data_path sys fs).2 (get_data_path sys fs).1 = none) :
    main ("run" :: qargs) sys fs env o =
      ⟨1, ["❌ Error: " ++ ("data.json not found at " ++
          pathStr (get_data_path sys fs).1 ++
          ". Please create it with your credentials."), "\nFull traceback:"],
        [], true, [Event.credLoad]⟩ ∧
    Event.clientInit ∉ (main ("run" :: qargs) sys fs env o).events := by
  cases qargs with
  | nil => exact absurd rfl hq
  | cons a rest =>
    have hrp : run_pipeline sys (module_env_setup sys fs env).1
        (module_env_setup sys fs env).2 o =
        (.error (.fileNotFound ("data.json not found at " ++
            pathStr (get_data_path sys fs).1 ++
            ". Please create it with your credentials.")),
         [Event.credLoad]) := by
      unfold run_pipeline
      have h1 : (module_env_setup sys fs env).1 =
          extract_bundled_files sys fs := rfl
      rw [h1, load_credentials_absent sys fs habs]
    have hmain : main ("run" :: a :: rest) sys fs env o =
        ⟨1, ["❌ Error: " ++ ("data.json not found at " ++
            pathStr (get_data_path sys fs).1 ++
            ". Please create it with your credentials."), "\nFull traceback:"],
          [], true, [Event.credLoad]⟩ := by
      have hstep : main ("run" :: a :: rest) sys fs env o =
          (if String.intercalate " " (a :: rest) = "" then
            ⟨1, ["❌ Error: Query parameter is required",
                 "Usage: python index.py run \"<your query>\""], [], false, []⟩
          else
            match run_pipeline sys (module_env_setup sys fs env).1
                (module_env_setup sys fs env).2 o with
            | (.error e, evs) =>
              ⟨1, ["❌ Error: " ++ e.msg, "\nFull traceback:"], [], true, evs⟩
            | (.ok ans, evs) => ⟨0, [pyStr ans], [], false, evs⟩) := rfl
      rw [hstep, if_neg hq, hrp]
      rfl
    refine ⟨hmain, ?_⟩
    rw [hmain]
    simp

/-- Witness for C3: in script mode with an empty filesystem, running the
query hi exits 1 with the not-found message naming /proj/data.json and
performs no remote call. -/
theorem c3_witness :
    main ["run", "hi"] sysScript fsEmpty envEmpty oracleOk =
      ⟨1, ["❌ Error: " ++ ("data.json not found at " ++
          pathStr (get_data_path sysScript fsEmpty).1 ++
          ". Please create it with your credentials."), "\nFull traceback:"],
        [], true, [Event.credLoad]⟩ :=
  (c3_missing_secrets sysScript fsEmpty envEmpty oracleOk ["hi"]
    (by decide) rfl).1

/-- C5 counterexample: invoking the CLI with the subcommand bogus does
not print a usage error to standard output and exit 1 as the claim says:
argparse rejects the invalid choice itself, printing to standard error
and exiting with status 2 (the in-code invalid-command branch is dead,
since argparse restricts the choices to run).  No pipeline stage runs. -/
theorem c5_counterexample :
    (main ["bogus", "hi"] sysScript fsEmpty envEmpty oracleOk).exitCode = 2 ∧
    (main ["bogus", "hi"] sysScript fsEmpty envEmpty oracleOk).stdout = [] ∧
    (main ["bogus", "hi"] sysScript fsEmpty envEmpty oracleOk).events = [] :=
  ⟨rfl, rfl, rfl⟩

/-- C5 as amended: a subcommand other than run makes argparse print its
usage error to standard error and exit with status 2, and so do an empty
argument list and a run invocation with no query argument at all (the
query positional is required); a non-empty argument list whose joined
query is empty prints the usage error to standard output and exits with
status 1; in all these cases no pipeline stage executes (no credential
load, no remote call). -/
theorem c5_amended_spec (sys : SysState) (fs : FS) (env : EnvMap)
    (o : Oracle) :
    (∀ c qargs, c ≠ "run" →
      main (c :: qargs) sys fs env o =
        ⟨2, [], [usageMsg, "main.py: error: " ++
          ("argument command: invalid choice: '" ++ c ++ "'")],
          false, []⟩) ∧
    (main [] sys fs env o =
      ⟨2, [], [usageMsg, "main.py: error: " ++
        "the following arguments are required: command, query"],
        false, []⟩) ∧
    (main ["run"] sys fs env o =
      ⟨2, [], [usageMsg, "main.py: error: " ++
        "the following arguments are required: query"],
        false, []⟩) ∧
    (∀ qargs, qargs ≠ [] → String.intercalate " " qargs = "" →
      main ("run" :: qargs) sys fs env o =
        ⟨1, ["❌ Error: Query parameter is required",
             "Usage: python index.py run \"<your query>\""], [], false, []⟩)
    := by
  refine ⟨fun c qargs h => ?_, rfl, rfl, fun qargs hne hq => ?_⟩
  · cases qargs with
    | nil =>
      simp only [main, parse_args]
      rw [if_neg h]
    | cons a rest =>
      simp only [main, parse_args]
      rw [if_neg h]
  · cases qargs with
    | nil => exact absurd rfl hne
    | cons a rest =>
      have hstep : main ("run" :: a :: rest) sys fs env o =
          (if String.intercalate " " (a :: rest) = "" then
            ⟨1, ["❌ Error: Query parameter is required",
                 "Usage: python index.py run \"<your query>\""], [], false, []⟩
          else
            match run_pipeline sys (module_env_setup sys fs env).1
                (module_env_setup sys fs env).2 o with
            | (.error e, evs) =>
              ⟨1, ["❌ Error: " ++ e.msg, "\nFull traceback:"], [], true, evs⟩
            | (.ok ans, evs) => ⟨0, [pyStr ans], [], false, evs⟩) := rfl
      rw [hstep, if_pos hq]

/-- Witness for C5: the subcommand bogus exits 2 via argparse on standard
error, run without a query exits 2 the same way, and run with a single
empty argument prints the query-required usage error to standard output
and exits 1. -/
theorem c5_witness :
    main ["bogus"] sysScript fsEmpty envEmpty oracleOk =
      ⟨2, [], [usageMsg, "main.py: error: " ++
        ("argument command: invalid choice: '" ++ "bogus" ++ "'")],
        false, []⟩ ∧
    main ["run"] sysScript fsEmpty envEmpty oracleOk =
      ⟨2, [], [usageMsg, "main.py: error: " ++
        "the following arguments are required: query"],
        false, []⟩ ∧
    main ["run", ""] sysScript fsEmpty envEmpty oracleOk =
      ⟨1, ["❌ Error: Query parameter is required",
           "Usage: python index.py run \"<your query>\""], [], false, []⟩ :=
  ⟨(c5_amended_spec sysScript fsEmpty envEmpty oracleOk).1 "bogus" []
      (by decide),
   (c5_amended_spec sysScript fsEmpty envEmpty oracleOk).2.2.1,
   (c5_amended_spec sysScript fsEmpty envEmpty oracleOk).2.2.2 [""]
      (by decide) (by decide)⟩

/-- C6: every pipeline failure surfaces identically at the CLI boundary —
exit status 1, the printed line built from the error's message alone (no
per-error-kind formatting) followed by the traceback — and every
successful pipeline run prints the textual answer to standard output and
exits with status 0. -/
theorem c6_uniform_errors (sys : SysState) (fs : FS) (env : EnvMap)
    (o : Oracle) (qargs : List String)
    (hq : String.intercalate " " qargs ≠ "") :
    (∀ e evs, run_pipeline sys (module_env_setup sys fs env).1
        (module_env_setup sys fs env).2 o = (.error e, evs) →
      main ("run" :: qargs) sys fs env o =
        ⟨1, ["❌ Error: " ++ e.msg, "\nFull traceback:"], [], true, evs⟩) ∧
    (∀ ans evs, run_pipeline sys (module_env_setup sys fs env).1
        (module_env_setup sys fs env).2 o = (.ok ans, evs) →
      main ("run" :: qargs) sys fs env o =
        ⟨0, [pyStr ans], [], false, evs⟩) := by
  cases qargs with
  | nil => exact absurd rfl hq
  | cons a rest =>
    have hstep : main ("run" :: a :: rest) sys fs env o =
        (if String.intercalate " " (a :: rest) = "" then
          ⟨1, ["❌ Error: Query parameter is required",
               "Usage: python index.py run \"<your query>\""], [], false, []⟩
        else
          match run_pipeline sys (module_env_setup sys fs env).1
              (module_env_setup sys fs env).2 o with
          | (.error e, evs) =>
            ⟨1, ["❌ Error: " ++ e.msg, "\nFull traceback:"], [], true, evs⟩
          | (.ok ans, evs) => ⟨0, [pyStr ans], [], false, evs⟩) := rfl
    refine ⟨fun e evs h => ?_, fun ans evs h => ?_⟩ <;>
      rw [hstep, if_neg hq, h]

/-- Witness for C6: a fully successful run prints the answer and exits 0
after the full event sequence. -/
theorem c6_witness :
    main ["run", "hi"] sysScript (fsSecrets (.str "a") (.str "b")) envEmpty
        oracleOk =
      ⟨0, [pyStr (.str "answer")], [], false,
        [Event.credLoad, Event.clientInit, Event.getTools,
         Event.modelCall]⟩ :=
  (c6_uniform_errors sysScript (fsSecrets (.str "a") (.str "b")) envEmpty
    oracleOk ["hi"] (by decide)).2 (.str "answer")
    [Event.credLoad, Event.clientInit, Event.getTools, Event.modelCall] rfl

lemma walk_to_root_head (p : Path) : ∃ t, walk_to_root p = p :: t := by
  unfold walk_to_root
  cases hl : p.length with
  | zero => exact ⟨[], rfl⟩
  | succ n => exact ⟨walk_aux n p.dropLast, rfl⟩

lemma find_head_hit {α : Type} (p : α → Bool) (pre : List α) (d : α)
    (post : List α) (hpre : ∀ x ∈ pre, p x = false) (hd : p d = true) :
    (pre ++ d :: post).find? p = some d := by
  induction pre with
  | nil => simpa using List.find?_cons_of_pos post hd
  | cons a t ih =>
    rw [List.cons_append, List.find?_cons_of_neg]
    · exact ih fun x hx => hpre x (List.mem_cons_of_mem a hx)
    · simp [hpre a (List.mem_cons_self a t)]

lemma load_dotenv_default_first_hit (sys : SysState) (fs : FS)
    (env : EnvMap) (pre : List Path) (d : Path) (post : List Path)
    (c : FileContent)
    (hwalk : walk_to_root sys.scriptDir = pre ++ d :: post)
    (hpre : ∀ d2 ∈ pre, fs (d2 ++ [".env"]) = none)
    (hd : fs (d ++ [".env"]) = some c) :
    load_dotenv_default sys fs env = load_dotenv_file c env := by
  unfold load_dotenv_default find_dotenv
  rw [hwalk, find_head_hit _ pre d post
    (fun x hx => by simp [hpre x hx]) (by simp [hd])]
  simp [load_dotenv_at, hd]

lemma load_dotenv_default_of_exists (sys : SysState) (fs : FS)
    (env : EnvMap) (c : FileContent)
    (h : fs (sys.scriptDir ++ [".env"]) = some c) :
    load_dotenv_default sys fs env = load_dotenv_file c env := by
  obtain ⟨t, ht⟩ := walk_to_root_head sys.scriptDir
  unfold load_dotenv_default find_dotenv
  rw [ht, List.find?_cons_of_pos _ (by simp [h])]
  simp [load_dotenv_at, h]

lemma load_dotenv_default_of_none (sys : SysState) (fs : FS) (env : EnvMap)
    (h : ∀ d ∈ walk_to_root sys.scriptDir, fs (d ++ [".env"]) = none) :
    load_dotenv_default sys fs env = env := by
  unfold load_dotenv_default find_dotenv
  have hf : (walk_to_root sys.scriptDir).find?
      (fun d => (fs (d ++ [".env"])).isSome) = none := by
    rw [List.find?_eq_none]
    intro x hx
    simp [h x hx]
  rw [hf]
  rfl

/-- C7 as amended: the environment loader's search order is — packaged
binary with a bundle: the bundle's .env if it exists, else the executable
directory's .env if that exists, else nothing; script mode: the .env that
python-dotenv finds starting from the script's own directory and walking
up its ancestors to the root (not the current working directory), the
first directory on that walk holding a .env winning; when no file exists
the environment is left unchanged and no error is raised. -/
theorem c7_amended_spec (sys : SysState) (fs : FS) (env : EnvMap) :
    (∀ bundle c, sys.frozen = true → sys.meipass = some bundle →
      extract_bundled_files sys fs (bundle ++ [".env"]) = some c →
      (module_env_setup sys fs env).2 = load_dotenv_file c env) ∧
    (∀ bundle c, sys.frozen = true → sys.meipass = some bundle →
      extract_bundled_files sys fs (bundle ++ [".env"]) = none →
      extract_bundled_files sys fs (sys.exeDir ++ [".env"]) = some c →
      (module_env_setup sys fs env).2 = load_dotenv_file c env) ∧
    (∀ bundle, sys.frozen = true → sys.meipass = some bundle →
      extract_bundled_files sys fs (bundle ++ [".env"]) = none →
      extract_bundled_files sys fs (sys.exeDir ++ [".env"]) = none →
      (module_env_setup sys fs env).2 = env) ∧
    (∀ pre d post c, sys.frozen = false →
      walk_to_root sys.scriptDir = pre ++ d :: post →
      (∀ d2 ∈ pre, extract_bundled_files sys fs (d2 ++ [".env"]) = none) →
      extract_bundled_files sys fs (d ++ [".env"]) = some c →
      (module_env_setup sys fs env).2 = load_dotenv_file c env) ∧
    (∀ c, sys.frozen = false →
      extract_bundled_files sys fs (sys.scriptDir ++ [".env"]) = some c →
      (module_env_setup sys fs env).2 = load_dotenv_file c env) ∧
    ((∀ d, d ∈ walk_to_root sys.scriptDir →
        extract_bundled_files sys fs (d ++ [".env"]) = none) →
      sys.frozen = false →
      (module_env_setup sys fs env).2 = env) := by
  refine ⟨fun bundle c hf hm h => ?_, fun bundle c hf hm h1 h2 => ?_,
      fun bundle hf hm h1 h2 => ?_, fun pre d post c hf hwalk hpre hd => ?_,
      fun c hf h => ?_, fun h hf => ?_⟩
  · simp [module_env_setup, module_env_value, load_dotenv_at, hf, hm, h]
  · simp [module_env_setup, module_env_value, load_dotenv_at, hf, hm,
      h1, h2]
  · simp [module_env_setup, module_env_value, hf, hm, h1, h2]
  · have hv : (module_env_setup sys fs env).2 =
        load_dotenv_default sys (extract_bundled_files sys fs) env := by
      simp [module_env_setup, module_env_value, hf]
    rw [hv]
    exact load_dotenv_default_first_hit sys (extract_bundled_files sys fs)
      env pre d post c hwalk hpre hd
  · have hv : (module_env_setup sys fs env).2 =
        load_dotenv_default sys (extract_bundled_files sys fs) env := by
      simp [module_env_setup, module_env_value, hf]
    rw [hv]
    exact load_dotenv_default_of_exists sys (extract_bundled_files sys fs)
      env c h
  · have hv : (module_env_setup sys fs env).2 =
        load_dotenv_default sys (extract_bundled_files sys fs) env := by
      simp [module_env_setup, module_env_value, hf]
    rw [hv]
    exact load_dotenv_default_of_none sys (extract_bundled_files sys fs)
      env h

/-- Witness for C7: in packaged-binary mode with the bundle's .env
present the loader loads exactly that file, and in script mode with the
script in /a/b and the only .env in the parent directory /a, the walk
skips /a/b and loads the parent's file (first existing file wins). -/
theorem c7_witness :
    (module_env_setup sysFrozen fsBundleEnv envEmpty).2 =
      load_dotenv_file (.envFile [("ANTHROPIC_API_KEY", "bk")]) envEmpty ∧
    (module_env_setup sysScriptDeep fsParentEnv envEmpty).2 =
      load_dotenv_file (.envFile [("ANTHROPIC_API_KEY", "pk")]) envEmpty :=
  ⟨(c7_amended_spec sysFrozen fsBundleEnv envEmpty).1 ["bundle"]
    (.envFile [("ANTHROPIC_API_KEY", "bk")]) rfl rfl rfl,
   (c7_amended_spec sysScriptDeep fsParentEnv envEmpty).2.2.2.1
    [["a", "b"]] ["a"] [[]] (.envFile [("ANTHROPIC_API_KEY", "pk")])
    rfl rfl
    (by
      intro d2 hd2
      rw [List.mem_singleton] at hd2
      subst hd2
      rfl)
    rfl⟩

/-- C7 counterexample: in script mode the claim says the loader reads the
current working directory's .env.  On a filesystem whose only .env sits
in the working directory /home/user — while the script lives in /proj —
the module prologue loads nothing: the API key the claim says would be
loaded is still absent afterwards. -/
theorem c7_counterexample :
    fsCwdEnvOnly (sysScript.cwd ++ [".env"]) =
      some (.envFile [("ANTHROPIC_API_KEY", "k")]) ∧
    (module_env_setup sysScript fsCwdEnvOnly envEmpty).2 "ANTHROPIC_API_KEY"
      = none :=
  ⟨rfl, rfl⟩

/-- C8: in script mode the secrets file resolves to the script's own
directory, extraction never changes the filesystem, the whole program run
is independent of the bundle root (no bundle path is ever read), and the
environment file is resolved starting from the script's own directory. -/
theorem c8_script_mode (sys : SysState) (fs : FS) (env : EnvMap)
    (o : Oracle) (hf : sys.frozen = false) :
    (get_data_path sys fs).1 = sys.scriptDir ++ ["data.json"] ∧
    extract_bundled_files sys fs = fs ∧
    (∀ m argv,
      main argv ⟨sys.frozen, m, sys.exeDir, sys.scriptDir, sys.cwd⟩
          fs env o =
        main argv sys fs env o) ∧
    (∀ c, fs (sys.scriptDir ++ [".env"]) = some c →
      (module_env_setup sys fs env).2 = load_dotenv_file c env) := by
  refine ⟨?_, extract_not_frozen sys fs hf, fun m argv => ?_, fun c hc => ?_⟩
  · rw [get_data_path_fst]
    simp [hf]
  · have hlc : ∀ fsx, load_credentials
        ⟨sys.frozen, m, sys.exeDir, sys.scriptDir, sys.cwd⟩ fsx =
        load_credentials sys fsx := by
      intro fsx
      have hgd : get_data_path
          ⟨sys.frozen, m, sys.exeDir, sys.scriptDir, sys.cwd⟩ fsx =
          get_data_path sys fsx := by
        simp [get_data_path, extract_bundled_files, hf]
      unfold load_credentials
      rw [hgd]
    have hms : module_env_setup
        ⟨sys.frozen, m, sys.exeDir, sys.scriptDir, sys.cwd⟩ fs env =
        module_env_setup sys fs env := by
      simp [module_env_setup, module_env_value, extract_bundled_files,
        load_dotenv_default, find_dotenv, load_dotenv_at, hf]
    have hrp : ∀ a b, run_pipeline
        ⟨sys.frozen, m, sys.exeDir, sys.scriptDir, sys.cwd⟩ a b o =
        run_pipeline sys a b o := by
      intro a b
      unfold run_pipeline
      rw [hlc]
    simp only [main, hms, hrp]
  · have hv : (module_env_setup sys fs env).2 =
        load_dotenv_default sys fs env := by
      simp [module_env_setup, module_env_value, hf,
        extract_not_frozen sys fs hf]
    rw [hv]
    exact load_dotenv_default_of_exists sys fs env c hc

/-- Witness for C8: with the script in /proj, the secrets path is
/proj/data.json, and a run with a bundle root configured behaves exactly
as the run without one. -/
theorem c8_witness :
    (get_data_path sysScript fsEmpty).1 = ["proj", "data.json"] ∧
    main ["run", "hi"]
        ⟨sysScript.frozen, some ["bundle"], sysScript.exeDir,
          sysScript.scriptDir, sysScript.cwd⟩ fsEmpty envEmpty oracleOk =
      main ["run", "hi"] sysScript fsEmpty envEmpty oracleOk :=
  ⟨(c8_script_mode sysScript fsEmpty envEmpty oracleOk rfl).1,
   (c8_script_mode sysScript fsEmpty envEmpty oracleOk rfl).2.2.1
     (some ["bundle"]) ["run", "hi"]⟩

end LocusAgent
